import Mathlib

/-!
Verification of the magnitude-sparsity controller of
`nncf/torch/sparsity/magnitude/algo.py` (class `MagnitudeSparsityController`).

Shallow embedding choices:
* Weight tensors and binary masks are flattened to `List ℚ` (the algorithm only
  reads the flattened view `view(-1)` and compares scores pointwise, so the
  multidimensional shape is irrelevant to every property below; real-valued
  entries are modelled by rationals, which carry the same order structure).
* The weight-importance function is an arbitrary `List ℚ → List ℚ` parameter,
  as in the source, where it is looked up in `WEIGHT_IMPORTANCE_FUNCTIONS`.
* Python's in-place mutation becomes explicit state passing: a method that
  mutates `self` returns the new controller.  A Python `raise` after partial
  mutation is modelled by returning the mutated state together with the error
  (`CallResult`), matching the fact that the caller's aliased object keeps the
  mutations performed before the raise.
* `torch.Tensor.sort()` (ascending) is modelled by `List.insertionSort (· ≤ ·)`;
  any correct ascending sort is extensionally the same list.
* Python `int()` applied to a float truncates toward zero; `pyInt` models it
  on rationals.
-/

/-- Per-layer sparsifying operand (class `BinaryMask` of
`nncf/torch/sparsity/layers.py`): holds the layer's binary mask and the
`frozen` flag read at `algo.py:114` and written at `algo.py:86`. -/
structure BinaryMask where
  frozen : Bool
  binary_mask : List ℚ
deriving DecidableEq

/-- One entry per sparsified layer (`SparseModuleInfo` of
`nncf/torch/sparsity/base_algo.py`): the layer's name, its weight tensor
(flattened) and its mask operand. -/
structure SparseModuleInfo where
  module_name : String
  weight : List ℚ
  operand : BinaryMask
deriving DecidableEq

/-- The part of the external scheduler state that `compression_stage`
(`algo.py:129-131`) reads: `current_sparsity_level` and `target_level`. -/
structure Scheduler where
  current_sparsity_level : ℚ
  target_level : ℚ
deriving DecidableEq

/-- State of a `MagnitudeSparsityController` (`algo.py:43-61`): the managed
layer list, the importance function, the mode string
(`sparsity_level_setting_mode`, `'global'` or `'local'`) and the optional
scheduler (`None` unless the mode is `'global'`). -/
structure Controller where
  sparsified_module_info : List SparseModuleInfo
  weight_importance_fn : List ℚ → List ℚ
  mode : String
  scheduler : Option Scheduler

/-- Python `int()` on a rational: truncation toward zero. -/
def pyInt (q : ℚ) : ℤ :=
  if q < 0 then -Int.floor (-q) else Int.floor q

/-- Modelled from the spec: `calc_magnitude_binary_mask` lives in
`nncf/torch/sparsity/magnitude/functions.py`, which is not part of the
provided sources; the spec defines it as
`mask[i] = 1 if importance_fn(weight)[i] > threshold else 0`
(strictly-greater-than semantics). -/
def calc_magnitude_binary_mask (weight : List ℚ) (weight_importance_fn : List ℚ → List ℚ)
    (threshold_val : ℚ) : List ℚ :=
  (weight_importance_fn weight).map (fun s => if threshold_val < s then 1 else 0)

/-- Modelled from the spec: the absolute-value importance function (an entry of
`WEIGHT_IMPORTANCE_FUNCTIONS` in `functions.py`, not part of the provided
sources); the spec's concrete scenario uses "importance = absolute value". -/
def abs_importance (weight : List ℚ) : List ℚ :=
  weight.map (fun w => |w|)

/-- Embedding of `MagnitudeSparsityController._collect_all_weights` (`algo.py:119-123`):
the importance scores of every layer in the target list, one flattened
tensor per layer. -/
def collect_all_weights (weight_importance_fn : List ℚ → List ℚ)
    (target_sparsified_module_info_list : List SparseModuleInfo) : List (List ℚ) :=
  target_sparsified_module_info_list.map (fun minfo => weight_importance_fn minfo.weight)

/-- Embedding of `MagnitudeSparsityController._select_threshold` (`algo.py:104-110`):
returns `0.0` when the layer list is empty; otherwise concatenates the
per-layer score tensors, sorts ascending, and reads the element at index
`int((size - 1) * sparsity_level)`.  (The source indexes a torch tensor; for
the levels in `[0,1)` considered by every claim the index is in bounds, so the
`Option.getD _ 0` fallback is never exercised there.) -/
def select_threshold (weight_importance_fn : List ℚ → List ℚ) (sparsity_level : ℚ)
    (target_sparsified_module_info_list : List SparseModuleInfo) : ℚ :=
  let all_weights := collect_all_weights weight_importance_fn target_sparsified_module_info_list
  if all_weights.isEmpty then 0
  else
    let all_weights_tensor := (all_weights.flatten).insertionSort (· ≤ ·)
    (all_weights_tensor[(pyInt (((all_weights_tensor.length : ℚ) - 1) * sparsity_level)).toNat]?).getD 0

/-- The per-layer body of `_set_masks_for_threshold` (`algo.py:113-117`):
a frozen layer is left untouched, an unfrozen layer's mask is replaced by
`calc_magnitude_binary_mask(weight, importance_fn, threshold)`. -/
def apply_mask_update (weight_importance_fn : List ℚ → List ℚ) (threshold_val : ℚ)
    (layer : SparseModuleInfo) : SparseModuleInfo :=
  if layer.operand.frozen then layer
  else { layer with operand := { layer.operand with
          binary_mask := calc_magnitude_binary_mask layer.weight weight_importance_fn threshold_val } }

/-- Embedding of `MagnitudeSparsityController._set_masks_for_threshold` (`algo.py:112-117`)
over a whole target list. -/
def set_masks_for_threshold (weight_importance_fn : List ℚ → List ℚ) (threshold_val : ℚ)
    (target_sparsified_module_info_list : List SparseModuleInfo) : List SparseModuleInfo :=
  target_sparsified_module_info_list.map (apply_mask_update weight_importance_fn threshold_val)

/-- Result of a call that may raise after mutating `self`: the (possibly
updated) controller together with the raised error, if any.  Python callers
that catch the exception still observe the mutations performed before the
raise, which is why the state is returned in both cases. -/
structure CallResult where
  controller : Controller
  error : Option String

/-- The `AttributeError` message of `algo.py:92-93`. -/
def out_of_range_msg (sparsity_level : ℚ) : String :=
  "Sparsity level should be within interval [0,1), actual value to set is: " ++ toString sparsity_level

/-- The working layer set resolved by `set_sparsity_level` (`algo.py:94-97`):
all managed layers when no target is given, else exactly the targeted layer.
A target layer is identified by its index in `sparsified_module_info`
(the source passes the aliased `SparseModuleInfo` object itself). -/
def resolve_target (c : Controller) (target : Option ℕ) : List SparseModuleInfo :=
  match target with
  | none => c.sparsified_module_info
  | some i => (c.sparsified_module_info[i]?).toList

/-- The mask updates performed by a valid `set_sparsity_level` call
(`algo.py:98-99`): the threshold is computed over the resolved working set,
then applied to every unfrozen layer of that set.  With a target layer, only
that (aliased) entry of the controller's list is touched. -/
def updated_module_info_list (c : Controller) (sparsity_level : ℚ)
    (target : Option ℕ) : List SparseModuleInfo :=
  let threshold := select_threshold c.weight_importance_fn sparsity_level (resolve_target c target)
  match target with
  | none => set_masks_for_threshold c.weight_importance_fn threshold c.sparsified_module_info
  | some i =>
    match c.sparsified_module_info[i]? with
    | some layer =>
      c.sparsified_module_info.set i (apply_mask_update c.weight_importance_fn threshold layer)
    | none => c.sparsified_module_info

/-- The error, if any, contributed by the optional batch-norm-adaptation step
(`algo.py:101-102`): nothing when `run_batchnorm_adaptation` is false,
otherwise the outcome of the external routine. -/
def adaptation_outcome (run_batchnorm_adaptation : Bool)
    (bn_adaptation_run : Except String Unit) : Option String :=
  if run_batchnorm_adaptation then
    match bn_adaptation_run with
    | Except.ok _ => none
    | Except.error e => some e
  else none

/-- Embedding of `MagnitudeSparsityController.set_sparsity_level` (`algo.py:88-102`).
`bn_adaptation_run` is the outcome of the external batch-norm-adaptation
routine (`BatchnormAdaptationAlgorithm.run`, an external collaborator per the
spec), consulted only when `run_batchnorm_adaptation` is true and only after
all mask updates.  Raising is modelled by `CallResult.error`; the range check
of `algo.py:91-93` happens before any mask update. -/
def Controller.set_sparsity_level (c : Controller) (bn_adaptation_run : Except String Unit)
    (sparsity_level : ℚ) (target : Option ℕ) (run_batchnorm_adaptation : Bool) : CallResult :=
  if 1 ≤ sparsity_level ∨ sparsity_level < 0 then
    { controller := c, error := some (out_of_range_msg sparsity_level) }
  else
    { controller := { c with sparsified_module_info := updated_module_info_list c sparsity_level target }
      error := adaptation_outcome run_batchnorm_adaptation bn_adaptation_run }

/-- The per-layer assignment `layer.operand.frozen = True` of `algo.py:86`. -/
def freeze_layer (layer : SparseModuleInfo) : SparseModuleInfo :=
  { layer with operand := { layer.operand with frozen := true } }

/-- Embedding of `MagnitudeSparsityController.freeze` (`algo.py:84-86`): sets the frozen
flag on every managed layer. -/
def Controller.freeze (c : Controller) : Controller :=
  { c with sparsified_module_info := c.sparsified_module_info.map freeze_layer }

/-- Embedding of `CompressionStage` of `nncf/api/compression.py`, as used at
`algo.py:125-133`. -/
inductive CompressionStage where
  | UNCOMPRESSED
  | PARTIALLY_COMPRESSED
  | FULLY_COMPRESSED
deriving DecidableEq

/-- Embedding of `MagnitudeSparsityController.compression_stage` (`algo.py:125-133`).
Reading `self.scheduler.current_sparsity_level` with `scheduler = None`
raises in Python; that path is modelled by `none`. -/
def Controller.compression_stage (c : Controller) : Option CompressionStage :=
  if c.mode = "local" then some CompressionStage.FULLY_COMPRESSED
  else
    match c.scheduler with
    | none => none
    | some s =>
      if s.current_sparsity_level = 0 then some CompressionStage.UNCOMPRESSED
      else if s.target_level ≤ s.current_sparsity_level then some CompressionStage.FULLY_COMPRESSED
      else some CompressionStage.PARTIALLY_COMPRESSED

/-- Embedding of `MagnitudeSparsityController.__init__` (`algo.py:44-61`): records the
importance function and mode, constructs a scheduler only in `'global'` mode
(`scheduler_from_init` abstracts the external `scheduler_cls(self, params)`
call, which receives `sparsity_init` through `params`), then immediately calls
`set_sparsity_level(sparsity_init)`; an exception there aborts construction. -/
def mkMagnitudeSparsityController (weight_importance_fn : List ℚ → List ℚ) (mode : String)
    (scheduler_from_init : ℚ → Scheduler) (sparsity_init : ℚ)
    (sparsified_module_info : List SparseModuleInfo) : Except String Controller :=
  let c0 : Controller :=
    { sparsified_module_info := sparsified_module_info
      weight_importance_fn := weight_importance_fn
      mode := mode
      scheduler := if mode = "global" then some (scheduler_from_init sparsity_init) else none }
  let r := c0.set_sparsity_level (Except.ok ()) sparsity_init none false
  match r.error with
  | none => Except.ok r.controller
  | some e => Except.error e

/-- The spec's description of threshold selection, written from its words:
"compute ImportanceScore for every layer in the list, flatten each to a 1-D
sequence, concatenate across all layers in the list". -/
def spec_pooled (weight_importance_fn : List ℚ → List ℚ)
    (layers : List SparseModuleInfo) : List ℚ :=
  (layers.map (fun m => weight_importance_fn m.weight)).flatten

/-- The spec's rank: `floor((N - 1) * level)` where `N` is the pooled element
count. -/
def spec_rank (n : ℕ) (level : ℚ) : ℕ :=
  (Int.floor (((n : ℚ) - 1) * level)).toNat

/-- The layer of the spec's concrete scenario: weights `[-3, 1, 0, 5, -2, 4]`,
mask initially all ones, not frozen. -/
def demo_layer : SparseModuleInfo :=
  ⟨"fc", [-3, 1, 0, 5, -2, 4], ⟨false, [1, 1, 1, 1, 1, 1]⟩⟩

/-- A frozen layer with a distinctive pre-existing mask. -/
def demo_frozen_layer : SparseModuleInfo :=
  ⟨"conv", [7, -1], ⟨true, [1, 0]⟩⟩

/-- A one-layer controller for the spec's concrete scenario. -/
def demo_controller : Controller :=
  ⟨[demo_layer], abs_importance, "global", some ⟨0, 1⟩⟩

/-- A controller holding one frozen and one unfrozen layer. -/
def demo_mixed_controller : Controller :=
  ⟨[demo_frozen_layer, demo_layer], abs_importance, "global", some ⟨0, 1⟩⟩

/-- A global-mode controller whose scheduler reports current level 0 and
target level 0. -/
def demo_zero_controller : Controller :=
  ⟨[], abs_importance, "global", some ⟨0, 0⟩⟩

/-- A global-mode controller whose scheduler reports current level 2 and
target level 1. -/
def demo_reached_controller : Controller :=
  ⟨[], abs_importance, "global", some ⟨2, 1⟩⟩

/-- A local-mode controller (its scheduler field is `none`, as built by
`__init__`). -/
def demo_local_controller : Controller :=
  ⟨[demo_layer], abs_importance, "local", none⟩

/-- A scheduler constructor for instantiating `mkMagnitudeSparsityController`:
the polynomial scheduler starts at the configured initial level (its precise
dynamics are external and irrelevant to the claims). -/
def demo_scheduler_from_init (sparsity_init : ℚ) : Scheduler :=
  ⟨sparsity_init, 1⟩

/- ======================================================================
   Helper lemmas
   ====================================================================== -/

theorem valid_level_not_rejected {level : ℚ} (h0 : 0 ≤ level) (h1 : level < 1) :
    ¬(1 ≤ level ∨ level < 0) := by
  rintro (h | h)
  · exact absurd h (not_le.mpr h1)
  · exact absurd h (not_lt.mpr h0)

theorem set_sparsity_level_invalid (c : Controller) (bn : Except String Unit) (level : ℚ)
    (target : Option ℕ) (run : Bool) (h : level < 0 ∨ 1 ≤ level) :
    c.set_sparsity_level bn level target run = ⟨c, some (out_of_range_msg level)⟩ := by
  rw [Controller.set_sparsity_level, if_pos h.symm]

theorem set_sparsity_level_valid (c : Controller) (bn : Except String Unit) (level : ℚ)
    (target : Option ℕ) (run : Bool) (h0 : 0 ≤ level) (h1 : level < 1) :
    c.set_sparsity_level bn level target run =
      ⟨{ c with sparsified_module_info := updated_module_info_list c level target },
        adaptation_outcome run bn⟩ := by
  rw [Controller.set_sparsity_level, if_neg (valid_level_not_rejected h0 h1)]

theorem apply_mask_update_frozen (fn : List ℚ → List ℚ) (t : ℚ) (layer : SparseModuleInfo)
    (h : layer.operand.frozen = true) : apply_mask_update fn t layer = layer := by
  simp [apply_mask_update, h]

theorem apply_mask_update_unfrozen (fn : List ℚ → List ℚ) (t : ℚ) (layer : SparseModuleInfo)
    (h : layer.operand.frozen = false) :
    apply_mask_update fn t layer =
      { layer with operand := { layer.operand with
          binary_mask := calc_magnitude_binary_mask layer.weight fn t } } := by
  simp [apply_mask_update, h]

theorem updated_list_getElem?_none (c : Controller) (level : ℚ) (i : ℕ) :
    (updated_module_info_list c level none)[i]? =
      (c.sparsified_module_info[i]?).map
        (apply_mask_update c.weight_importance_fn
          (select_threshold c.weight_importance_fn level c.sparsified_module_info)) := by
  simp [updated_module_info_list, set_masks_for_threshold, resolve_target, List.getElem?_map]

theorem updated_list_getElem?_target_self (c : Controller) (level : ℚ) (k : ℕ)
    (layer : SparseModuleInfo) (hk : c.sparsified_module_info[k]? = some layer) :
    (updated_module_info_list c level (some k))[k]? =
      some (apply_mask_update c.weight_importance_fn
        (select_threshold c.weight_importance_fn level [layer]) layer) := by
  have hlt : k < c.sparsified_module_info.length := by
    rcases List.getElem?_eq_some.mp hk with ⟨h, _⟩
    exact h
  rw [updated_module_info_list]
  simp only [resolve_target, hk, Option.toList_some]
  exact List.getElem?_set_self hlt

theorem updated_list_getElem?_target_other (c : Controller) (level : ℚ) (k i : ℕ)
    (hne : i ≠ k) :
    (updated_module_info_list c level (some k))[i]? = c.sparsified_module_info[i]? := by
  rw [updated_module_info_list]
  cases hk : c.sparsified_module_info[k]? with
  | none => rfl
  | some layer => exact List.getElem?_set_ne (Ne.symm hne)

/- ======================================================================
   Claim theorems
   ====================================================================== -/

/-- C6: for every sparsity level, `select_threshold` applied to an empty layer
list returns exactly 0.0 without raising (`algo.py:106-107`). -/
theorem select_threshold_empty_list (weight_importance_fn : List ℚ → List ℚ) (level : ℚ) :
    select_threshold weight_importance_fn level [] = 0 := rfl

/-- C2: the mask-apply step uses strictly-greater-than semantics — `mask[i]`
is 1 exactly when the importance score exceeds the threshold and 0 otherwise —
and on the spec's concrete scenario (one layer with weights
`[-3, 1, 0, 5, -2, 4]`, absolute-value importance, level 0.5) the selected
threshold is 2 and the resulting mask is `[1, 0, 0, 1, 0, 1]`. -/
theorem mask_apply_strict_greater (weight : List ℚ) (fn : List ℚ → List ℚ) (threshold : ℚ)
    (i : ℕ) (hi : i < (fn weight).length) :
    (calc_magnitude_binary_mask weight fn threshold)[i]? =
        some (if threshold < (fn weight)[i] then (1 : ℚ) else 0)
    ∧ ((calc_magnitude_binary_mask weight fn threshold)[i]? = some 1 ↔
        threshold < (fn weight)[i])
    ∧ select_threshold abs_importance (1 / 2) [demo_layer] = 2
    ∧ (demo_controller.set_sparsity_level (Except.ok ()) (1 / 2) none
        false).controller.sparsified_module_info.map (fun m => m.operand.binary_mask)
        = [[1, 0, 0, 1, 0, 1]] := by
  have hfirst : (calc_magnitude_binary_mask weight fn threshold)[i]? =
      some (if threshold < (fn weight)[i] then (1 : ℚ) else 0) := by
    rw [calc_magnitude_binary_mask, List.getElem?_map, List.getElem?_eq_getElem hi]
    simp
  refine ⟨hfirst, ?_, ?_, ?_⟩
  · rw [hfirst]
    split_ifs with h <;> simp [h]
  · norm_num [select_threshold, collect_all_weights, abs_importance, demo_layer, pyInt,
      List.insertionSort, List.orderedInsert]
    decide
  · norm_num [Controller.set_sparsity_level, updated_module_info_list, adaptation_outcome,
      resolve_target, select_threshold, collect_all_weights, abs_importance, demo_controller,
      demo_layer, pyInt, List.insertionSort, List.orderedInsert, set_masks_for_threshold,
      apply_mask_update, calc_magnitude_binary_mask]
    decide

/-- C2 witness: the general part instantiated at the scenario's own layer,
element 0 (score 3 with threshold 2). -/
theorem mask_apply_strict_greater_witness :
    0 < (abs_importance [-3, 1, 0, 5, -2, 4]).length
    ∧ ((calc_magnitude_binary_mask [-3, 1, 0, 5, -2, 4] abs_importance 2)[0]? =
        some (if 2 < (abs_importance [-3, 1, 0, 5, -2, 4]).get ⟨0, by decide⟩ then (1 : ℚ) else 0)
    ∧ ((calc_magnitude_binary_mask [-3, 1, 0, 5, -2, 4] abs_importance 2)[0]? = some 1 ↔
        2 < (abs_importance [-3, 1, 0, 5, -2, 4]).get ⟨0, by decide⟩)
    ∧ select_threshold abs_importance (1 / 2) [demo_layer] = 2
    ∧ (demo_controller.set_sparsity_level (Except.ok ()) (1 / 2) none
        false).controller.sparsified_module_info.map (fun m => m.operand.binary_mask)
        = [[1, 0, 0, 1, 0, 1]]) :=
  ⟨by decide, mask_apply_strict_greater [-3, 1, 0, 5, -2, 4] abs_importance 2 0 (by decide)⟩

/-- C4: a level outside `[0,1)` makes `set_sparsity_level` raise the
out-of-range error naming the value, with no mask mutated (the controller is
returned unchanged), and a subsequent call with a valid level succeeds. -/
theorem out_of_range_level_atomic (c : Controller) (bn : Except String Unit)
    (level level2 : ℚ) (target target2 : Option ℕ) (run : Bool)
    (hbad : level < 0 ∨ 1 ≤ level) (h0 : 0 ≤ level2) (h1 : level2 < 1) :
    (c.set_sparsity_level bn level target run).error = some (out_of_range_msg level)
    ∧ (c.set_sparsity_level bn level target run).controller = c
    ∧ ((c.set_sparsity_level bn level target run).controller.set_sparsity_level
        (Except.ok ()) level2 target2 false).error = none := by
  rw [set_sparsity_level_invalid c bn level target run hbad]
  refine ⟨rfl, rfl, ?_⟩
  rw [set_sparsity_level_valid _ _ _ _ _ h0 h1]
  rfl

/-- C4 witness: level 2 is rejected by `demo_mixed_controller`, which then
accepts level 0. -/
theorem out_of_range_level_atomic_witness :
    ((2 : ℚ) < 0 ∨ 1 ≤ (2 : ℚ)) ∧ (0 : ℚ) ≤ 0 ∧ (0 : ℚ) < 1
    ∧ ((demo_mixed_controller.set_sparsity_level (Except.ok ()) 2 none true).error =
        some (out_of_range_msg 2)
    ∧ (demo_mixed_controller.set_sparsity_level (Except.ok ()) 2 none true).controller =
        demo_mixed_controller
    ∧ ((demo_mixed_controller.set_sparsity_level (Except.ok ()) 2 none
        true).controller.set_sparsity_level (Except.ok ()) 0 none false).error = none) :=
  ⟨by decide, by decide, by decide,
    out_of_range_level_atomic demo_mixed_controller (Except.ok ()) 2 0 none none true
      (by decide) (by decide) (by decide)⟩

/-- C8: when the external adaptation routine raises, the error propagates
unchanged out of `set_sparsity_level`, and the controller state is exactly the
state the same call would have produced without adaptation — the masks applied
earlier in the call remain applied (the adaptation step of `algo.py:101-102`
runs strictly after the mask updates of `algo.py:99`). -/
theorem adaptation_failure_no_rollback (c : Controller) (level : ℚ) (target : Option ℕ)
    (e : String) (h0 : 0 ≤ level) (h1 : level < 1) :
    (c.set_sparsity_level (Except.error e) level target true).error = some e
    ∧ (c.set_sparsity_level (Except.error e) level target true).controller
        = (c.set_sparsity_level (Except.ok ()) level target false).controller := by
  rw [set_sparsity_level_valid _ _ _ _ _ h0 h1, set_sparsity_level_valid _ _ _ _ _ h0 h1]
  exact ⟨rfl, rfl⟩

/-- C8 witness: a failing adaptation at level 0 on the two-layer controller. -/
theorem adaptation_failure_no_rollback_witness :
    (0 : ℚ) ≤ 0 ∧ (0 : ℚ) < 1
    ∧ ((demo_mixed_controller.set_sparsity_level (Except.error "bn failed") 0 none true).error
        = some "bn failed"
    ∧ (demo_mixed_controller.set_sparsity_level (Except.error "bn failed") 0 none true).controller
        = (demo_mixed_controller.set_sparsity_level (Except.ok ()) 0 none false).controller) :=
  ⟨by decide, by decide,
    adaptation_failure_no_rollback demo_mixed_controller 0 none "bn failed"
      (by decide) (by decide)⟩

/-- C5 counterexample: with the scheduler reporting current level 0 and target
level 0 in global mode, the current level is greater than or equal to the
target, yet `compression_stage` returns `UNCOMPRESSED`, not
`FULLY_COMPRESSED` — the zero check of `algo.py:129` fires first, refuting the
claim's unconditional "current ≥ target implies FullyCompressed". -/
theorem compression_stage_zero_beats_target :
    demo_zero_controller.mode = "global"
    ∧ demo_zero_controller.scheduler = some ⟨0, 0⟩
    ∧ (⟨0, 0⟩ : Scheduler).target_level ≤ (⟨0, 0⟩ : Scheduler).current_sparsity_level
    ∧ demo_zero_controller.compression_stage = some CompressionStage.UNCOMPRESSED
    ∧ demo_zero_controller.compression_stage ≠ some CompressionStage.FULLY_COMPRESSED := by
  refine ⟨rfl, rfl, le_refl 0, ?_, ?_⟩ <;> decide

/-- C5 amended: `compression_stage` is `FULLY_COMPRESSED` in local mode; in
global mode the three cases apply in order — `UNCOMPRESSED` when the current
scheduled level is 0 (even if the target is also reached), otherwise
`FULLY_COMPRESSED` when current ≥ target, otherwise `PARTIALLY_COMPRESSED`. -/
theorem compression_stage_cases (c clocal : Controller) (s : Scheduler)
    (hsc : c.scheduler = some s) (hmode : c.mode = "global")
    (hmode2 : clocal.mode = "local") :
    c.compression_stage = some
      (if s.current_sparsity_level = 0 then CompressionStage.UNCOMPRESSED
       else if s.target_level ≤ s.current_sparsity_level then CompressionStage.FULLY_COMPRESSED
       else CompressionStage.PARTIALLY_COMPRESSED)
    ∧ clocal.compression_stage = some CompressionStage.FULLY_COMPRESSED := by
  constructor
  · split_ifs with h1 h2
    · simp [Controller.compression_stage, hmode, hsc, h1]
    · simp [Controller.compression_stage, hmode, hsc, h1, h2]
    · simp [Controller.compression_stage, hmode, hsc, h1, h2]
  · rw [Controller.compression_stage, hmode2, if_pos rfl]

/-- C5 witness: a global-mode controller with current 2 ≥ target 1 is fully
compressed; a local-mode controller is always fully compressed. -/
theorem compression_stage_cases_witness :
    (demo_reached_controller.scheduler = some ⟨2, 1⟩
    ∧ demo_reached_controller.mode = "global"
    ∧ demo_local_controller.mode = "local")
    ∧ (demo_reached_controller.compression_stage = some
        (if (⟨2, 1⟩ : Scheduler).current_sparsity_level = 0 then CompressionStage.UNCOMPRESSED
         else if (⟨2, 1⟩ : Scheduler).target_level ≤ (⟨2, 1⟩ : Scheduler).current_sparsity_level
           then CompressionStage.FULLY_COMPRESSED
         else CompressionStage.PARTIALLY_COMPRESSED)
    ∧ demo_local_controller.compression_stage = some CompressionStage.FULLY_COMPRESSED) :=
  ⟨⟨rfl, rfl, rfl⟩,
    compression_stage_cases demo_reached_controller demo_local_controller ⟨2, 1⟩ rfl rfl rfl⟩

/- ======================================================================
   More helper lemmas (frozen layers, freeze)
   ====================================================================== -/

theorem set_getElem?_self_eq {α : Type} (l : List α) (i : ℕ) (a : α)
    (h : l[i]? = some a) : l.set i a = l := by
  apply List.ext_getElem?
  intro j
  by_cases hj : j = i
  · subst hj
    rcases List.getElem?_eq_some.mp h with ⟨hlt, he⟩
    rw [List.getElem?_set_self hlt, h]
  · exact List.getElem?_set_ne (fun he => hj he.symm)

theorem updated_list_all_frozen (c : Controller) (level : ℚ) (target : Option ℕ)
    (hall : ∀ l ∈ c.sparsified_module_info, l.operand.frozen = true) :
    updated_module_info_list c level target = c.sparsified_module_info := by
  cases target with
  | none =>
    rw [updated_module_info_list, set_masks_for_threshold]
    exact (List.map_congr_left
        (fun a ha => apply_mask_update_frozen _ _ a (hall a ha))).trans
      (List.map_id'' (fun _ => rfl) _)
  | some k =>
    cases hk : c.sparsified_module_info[k]? with
    | none => simp only [updated_module_info_list, hk]
    | some layer =>
      simp only [updated_module_info_list, hk]
      rw [apply_mask_update_frozen _ _ layer (hall layer (List.getElem?_mem hk))]
      exact set_getElem?_self_eq _ k layer hk

theorem freeze_preserves_weight (layer : SparseModuleInfo) :
    (freeze_layer layer).weight = layer.weight := rfl

theorem freeze_all_frozen (c : Controller) :
    ∀ l ∈ c.freeze.sparsified_module_info, l.operand.frozen = true := by
  intro l hl
  rcases List.mem_map.mp hl with ⟨x, _, hx⟩
  rw [← hx]
  rfl

theorem collect_all_weights_map_freeze (fn : List ℚ → List ℚ) (l : List SparseModuleInfo) :
    collect_all_weights fn (l.map freeze_layer) = collect_all_weights fn l := by
  rw [collect_all_weights, collect_all_weights, List.map_map]
  rfl

theorem select_threshold_map_freeze (fn : List ℚ → List ℚ) (level : ℚ)
    (l : List SparseModuleInfo) :
    select_threshold fn level (l.map freeze_layer) = select_threshold fn level l := by
  rw [select_threshold, select_threshold, collect_all_weights_map_freeze]

theorem resolve_target_freeze (c : Controller) (target : Option ℕ) :
    resolve_target c.freeze target = (resolve_target c target).map freeze_layer := by
  cases target with
  | none => rfl
  | some k =>
    simp only [resolve_target, Controller.freeze, List.getElem?_map]
    cases c.sparsified_module_info[k]? <;> rfl

/-- C3: any call of `set_sparsity_level` with a valid level — any target
resolution, any adaptation flag — leaves a frozen layer's entry (and hence its
mask) bit-for-bit unchanged, while an unfrozen layer belonging to the resolved
target set gets the freshly computed mask. -/
theorem frozen_mask_never_modified (c : Controller) (bn : Except String Unit) (level : ℚ)
    (target : Option ℕ) (run : Bool) (i j : ℕ) (m mj : SparseModuleInfo)
    (h0 : 0 ≤ level) (h1 : level < 1)
    (hm : c.sparsified_module_info[i]? = some m) (hfro : m.operand.frozen = true)
    (hmj : c.sparsified_module_info[j]? = some mj) (hunf : mj.operand.frozen = false)
    (hjt : target = none ∨ target = some j) :
    (c.set_sparsity_level bn level target run).controller.sparsified_module_info[i]? = some m
    ∧ (c.set_sparsity_level bn level target run).controller.sparsified_module_info[j]? =
        some { mj with operand := { mj.operand with
          binary_mask := calc_magnitude_binary_mask mj.weight c.weight_importance_fn
            (select_threshold c.weight_importance_fn level (resolve_target c target)) } } := by
  rw [set_sparsity_level_valid _ _ _ _ _ h0 h1]
  constructor
  · cases target with
    | none =>
      rw [updated_list_getElem?_none, hm]
      simp [apply_mask_update_frozen _ _ _ hfro]
    | some k =>
      by_cases hik : i = k
      · subst hik
        rw [updated_list_getElem?_target_self c level i m hm,
          apply_mask_update_frozen _ _ _ hfro]
      · rw [updated_list_getElem?_target_other c level k i hik, hm]
  · rcases hjt with h | h
    · subst h
      rw [updated_list_getElem?_none, hmj]
      simp only [Option.map_some']
      rw [apply_mask_update_unfrozen _ _ _ hunf]
      rfl
    · subst h
      rw [updated_list_getElem?_target_self c level j mj hmj,
        apply_mask_update_unfrozen _ _ _ hunf]
      have : resolve_target c (some j) = [mj] := by
        simp [resolve_target, hmj]
      rw [this]

/-- C3 witness: on the mixed controller at level 0, the frozen layer (index 0)
keeps mask `[1, 0]` while the unfrozen layer (index 1) is rewritten. -/
theorem frozen_mask_never_modified_witness :
    ((0 : ℚ) ≤ 0 ∧ (0 : ℚ) < 1
    ∧ demo_mixed_controller.sparsified_module_info[0]? = some demo_frozen_layer
    ∧ demo_frozen_layer.operand.frozen = true
    ∧ demo_mixed_controller.sparsified_module_info[1]? = some demo_layer
    ∧ demo_layer.operand.frozen = false)
    ∧ ((demo_mixed_controller.set_sparsity_level (Except.ok ()) 0 none
          false).controller.sparsified_module_info[0]? = some demo_frozen_layer
    ∧ (demo_mixed_controller.set_sparsity_level (Except.ok ()) 0 none
          false).controller.sparsified_module_info[1]? =
        some { demo_layer with operand := { demo_layer.operand with
          binary_mask := calc_magnitude_binary_mask demo_layer.weight
            demo_mixed_controller.weight_importance_fn
            (select_threshold demo_mixed_controller.weight_importance_fn 0
              (resolve_target demo_mixed_controller none)) } }) :=
  ⟨⟨by decide, by decide, by decide, by decide, by decide, by decide⟩,
    frozen_mask_never_modified demo_mixed_controller (Except.ok ()) 0 none false 0 1
      demo_frozen_layer demo_layer (by decide) (by decide) (by decide) (by decide)
      (by decide) (by decide) (Or.inl rfl)⟩

/-- C7: `freeze()` sets the frozen flag on every managed layer; afterwards any
`set_sparsity_level` call — valid or not, any target, any adaptation flag —
leaves the whole layer list (hence every mask) unchanged, while the threshold
computation of `algo.py:98`, which reads only weights and is performed before
the per-layer frozen check, is unaffected by the freeze. -/
theorem freeze_latches_and_masks_stable (c : Controller) (bn : Except String Unit)
    (level : ℚ) (target : Option ℕ) (run : Bool) (i : ℕ) (m : SparseModuleInfo)
    (hi : c.freeze.sparsified_module_info[i]? = some m) :
    m.operand.frozen = true
    ∧ (c.freeze.set_sparsity_level bn level target run).controller.sparsified_module_info
        = c.freeze.sparsified_module_info
    ∧ select_threshold c.weight_importance_fn level (resolve_target c.freeze target)
        = select_threshold c.weight_importance_fn level (resolve_target c target) := by
  refine ⟨?_, ?_, ?_⟩
  · exact freeze_all_frozen c m (List.getElem?_mem hi)
  · by_cases hv : 1 ≤ level ∨ level < 0
    · rw [Controller.set_sparsity_level, if_pos hv]
    · rw [Controller.set_sparsity_level, if_neg hv]
      exact updated_list_all_frozen c.freeze level target (freeze_all_frozen c)
  · rw [resolve_target_freeze, select_threshold_map_freeze]

/-- C7 witness: freezing the two-layer controller latches layer 0, and a
subsequent level-0 call changes nothing while computing the same threshold. -/
theorem freeze_latches_and_masks_stable_witness :
    demo_mixed_controller.freeze.sparsified_module_info[0]? =
        some (freeze_layer demo_frozen_layer)
    ∧ ((freeze_layer demo_frozen_layer).operand.frozen = true
    ∧ (demo_mixed_controller.freeze.set_sparsity_level (Except.ok ()) 0 none
        true).controller.sparsified_module_info
        = demo_mixed_controller.freeze.sparsified_module_info
    ∧ select_threshold demo_mixed_controller.weight_importance_fn 0
        (resolve_target demo_mixed_controller.freeze none)
        = select_threshold demo_mixed_controller.weight_importance_fn 0
          (resolve_target demo_mixed_controller none)) :=
  ⟨by decide,
    freeze_latches_and_masks_stable demo_mixed_controller (Except.ok ()) 0 none true 0
      (freeze_layer demo_frozen_layer) (by decide)⟩

theorem set_sparsity_level_preserves_mode_and_scheduler (c : Controller)
    (bn : Except String Unit) (level : ℚ) (target : Option ℕ) (run : Bool) :
    (c.set_sparsity_level bn level target run).controller.mode = c.mode
    ∧ (c.set_sparsity_level bn level target run).controller.scheduler = c.scheduler := by
  rw [Controller.set_sparsity_level]
  split_ifs <;> exact ⟨rfl, rfl⟩

/-- C9: `__init__` immediately invokes `set_sparsity_level(sparsity_init)`
(`algo.py:61`), so construction with a valid initial level returns a
controller whose unfrozen layers already carry the mask for that level, and
construction with an initial level outside `[0,1)` fails with the same
out-of-range error. -/
theorem construction_applies_initial_level (fn : List ℚ → List ℚ) (mode : String)
    (sf : ℚ → Scheduler) (init bad : ℚ) (layers : List SparseModuleInfo)
    (i : ℕ) (m : SparseModuleInfo)
    (h0 : 0 ≤ init) (h1 : init < 1) (hbad : bad < 0 ∨ 1 ≤ bad)
    (hm : layers[i]? = some m) (hunf : m.operand.frozen = false) :
    mkMagnitudeSparsityController fn mode sf init layers = Except.ok
      { sparsified_module_info :=
          set_masks_for_threshold fn (select_threshold fn init layers) layers
        weight_importance_fn := fn
        mode := mode
        scheduler := if mode = "global" then some (sf init) else none }
    ∧ (set_masks_for_threshold fn (select_threshold fn init layers) layers)[i]? =
        some { m with operand := { m.operand with
          binary_mask := calc_magnitude_binary_mask m.weight fn
            (select_threshold fn init layers) } }
    ∧ mkMagnitudeSparsityController fn mode sf bad layers =
        Except.error (out_of_range_msg bad) := by
  refine ⟨?_, ?_, ?_⟩
  · simp only [mkMagnitudeSparsityController, set_sparsity_level_valid _ _ _ _ _ h0 h1]
    simp only [adaptation_outcome, updated_module_info_list, resolve_target]
    rfl
  · simp only [set_masks_for_threshold, List.getElem?_map, hm, Option.map_some']
    rw [apply_mask_update_unfrozen _ _ _ hunf]
  · simp only [mkMagnitudeSparsityController, set_sparsity_level_invalid _ _ _ _ _ hbad]

/-- C9 witness: building the one-layer controller at the default initial
level 0 succeeds with the mask already applied; initial level 2 fails. -/
theorem construction_applies_initial_level_witness :
    ((0 : ℚ) ≤ 0 ∧ (0 : ℚ) < 1 ∧ ((2 : ℚ) < 0 ∨ 1 ≤ (2 : ℚ))
    ∧ [demo_layer][0]? = some demo_layer ∧ demo_layer.operand.frozen = false)
    ∧ (mkMagnitudeSparsityController abs_importance "global" demo_scheduler_from_init 0
        [demo_layer] = Except.ok
      { sparsified_module_info :=
          set_masks_for_threshold abs_importance
            (select_threshold abs_importance 0 [demo_layer]) [demo_layer]
        weight_importance_fn := abs_importance
        mode := "global"
        scheduler := if "global" = "global" then some (demo_scheduler_from_init 0) else none }
    ∧ (set_masks_for_threshold abs_importance
          (select_threshold abs_importance 0 [demo_layer]) [demo_layer])[0]? =
        some { demo_layer with operand := { demo_layer.operand with
          binary_mask := calc_magnitude_binary_mask demo_layer.weight abs_importance
            (select_threshold abs_importance 0 [demo_layer]) } }
    ∧ mkMagnitudeSparsityController abs_importance "global" demo_scheduler_from_init 2
        [demo_layer] = Except.error (out_of_range_msg 2)) :=
  ⟨⟨by decide, by decide, by decide, by decide, by decide⟩,
    construction_applies_initial_level abs_importance "global" demo_scheduler_from_init 0 2
      [demo_layer] 0 demo_layer (by decide) (by decide) (by decide) (by decide) (by decide)⟩

/-- C10: a controller constructed in local mode has no scheduler, and keeps
none through `set_sparsity_level` and `freeze`; `compression_stage` answers
`FULLY_COMPRESSED` from the mode alone, independent of the scheduler field. -/
theorem local_mode_never_touches_scheduler (fn : List ℚ → List ℚ) (sf : ℚ → Scheduler)
    (init level : ℚ) (layers : List SparseModuleInfo) (c : Controller)
    (bn : Except String Unit) (target : Option ℕ) (run : Bool) (s : Scheduler)
    (hok : mkMagnitudeSparsityController fn "local" sf init layers = Except.ok c) :
    c.scheduler = none
    ∧ c.mode = "local"
    ∧ c.compression_stage = some CompressionStage.FULLY_COMPRESSED
    ∧ { c with scheduler := some s }.compression_stage = some CompressionStage.FULLY_COMPRESSED
    ∧ (c.set_sparsity_level bn level target run).controller.scheduler = none
    ∧ (c.set_sparsity_level bn level target run).controller.mode = "local"
    ∧ c.freeze.scheduler = none
    ∧ c.freeze.mode = "local" := by
  have hc : c.scheduler = none ∧ c.mode = "local" := by
    by_cases hv : 1 ≤ init ∨ init < 0
    · rw [mkMagnitudeSparsityController, set_sparsity_level_invalid _ _ _ _ _ hv.symm] at hok
      cases hok
    · rcases not_or.mp hv with ⟨ha, hb⟩
      rw [mkMagnitudeSparsityController,
        set_sparsity_level_valid _ _ _ _ _ (not_lt.mp hb) (not_le.mp ha)] at hok
      have hok2 := Except.ok.inj hok
      rw [← hok2]
      exact ⟨by simp, rfl⟩
  have hpres := set_sparsity_level_preserves_mode_and_scheduler c bn level target run
  refine ⟨hc.1, hc.2, ?_, ?_, ?_, ?_, hc.1, hc.2⟩
  · rw [Controller.compression_stage, hc.2, if_pos rfl]
  · rw [Controller.compression_stage]
    simp only
    rw [hc.2, if_pos rfl]
  · rw [hpres.2, hc.1]
  · rw [hpres.1, hc.2]

/-- C10 witness: local-mode construction of the one-layer controller at
level 0. -/
theorem local_mode_never_touches_scheduler_witness :
    mkMagnitudeSparsityController abs_importance "local" demo_scheduler_from_init 0
        [demo_layer] = Except.ok
        ⟨set_masks_for_threshold abs_importance
            (select_threshold abs_importance 0 [demo_layer]) [demo_layer],
          abs_importance, "local", none⟩
    ∧ ((⟨set_masks_for_threshold abs_importance
            (select_threshold abs_importance 0 [demo_layer]) [demo_layer],
          abs_importance, "local", none⟩ : Controller).scheduler = none
    ∧ (⟨set_masks_for_threshold abs_importance
            (select_threshold abs_importance 0 [demo_layer]) [demo_layer],
          abs_importance, "local", none⟩ : Controller).mode = "local"
    ∧ (⟨set_masks_for_threshold abs_importance
            (select_threshold abs_importance 0 [demo_layer]) [demo_layer],
          abs_importance, "local", none⟩ : Controller).compression_stage =
        some CompressionStage.FULLY_COMPRESSED
    ∧ ({ (⟨set_masks_for_threshold abs_importance
            (select_threshold abs_importance 0 [demo_layer]) [demo_layer],
          abs_importance, "local", none⟩ : Controller) with
          scheduler := some ⟨0, 1⟩ }).compression_stage =
        some CompressionStage.FULLY_COMPRESSED
    ∧ ((⟨set_masks_for_threshold abs_importance
            (select_threshold abs_importance 0 [demo_layer]) [demo_layer],
          abs_importance, "local", none⟩ : Controller).set_sparsity_level
          (Except.ok ()) 0 none false).controller.scheduler = none
    ∧ ((⟨set_masks_for_threshold abs_importance
            (select_threshold abs_importance 0 [demo_layer]) [demo_layer],
          abs_importance, "local", none⟩ : Controller).set_sparsity_level
          (Except.ok ()) 0 none false).controller.mode = "local"
    ∧ (⟨set_masks_for_threshold abs_importance
            (select_threshold abs_importance 0 [demo_layer]) [demo_layer],
          abs_importance, "local", none⟩ : Controller).freeze.scheduler = none
    ∧ (⟨set_masks_for_threshold abs_importance
            (select_threshold abs_importance 0 [demo_layer]) [demo_layer],
          abs_importance, "local", none⟩ : Controller).freeze.mode = "local") := by
  have hmk : mkMagnitudeSparsityController abs_importance "local" demo_scheduler_from_init 0
      [demo_layer] = Except.ok
      ⟨set_masks_for_threshold abs_importance
          (select_threshold abs_importance 0 [demo_layer]) [demo_layer],
        abs_importance, "local", none⟩ := by
    simp only [mkMagnitudeSparsityController,
      set_sparsity_level_valid _ _ _ _ _ (by decide : (0:ℚ) ≤ 0) (by decide : (0:ℚ) < 1)]
    simp only [adaptation_outcome, updated_module_info_list, resolve_target]
    rfl
  exact ⟨hmk, local_mode_never_touches_scheduler abs_importance demo_scheduler_from_init 0 0
    [demo_layer] _ (Except.ok ()) none false ⟨0, 1⟩ hmk⟩

theorem select_threshold_unfold (fn : List ℚ → List ℚ) (level : ℚ)
    (layers : List SparseModuleInfo) (hne : layers ≠ []) :
    select_threshold fn level layers =
      ((((spec_pooled fn layers).insertionSort (· ≤ ·)))[(pyInt
        (((((spec_pooled fn layers).insertionSort (· ≤ ·)).length : ℚ) - 1) *
          level)).toNat]?).getD 0 := by
  have hnonempty : (collect_all_weights fn layers).isEmpty = false := by
    cases layers with
    | nil => exact absurd rfl hne
    | cons a l => rfl
  rw [select_threshold]
  simp only [hnonempty, Bool.false_eq_true, if_false]
  rfl

/-- C1: for every level in `[0,1)` and non-empty layer list with at least one
pooled score, `select_threshold` returns exactly the element of rank
`floor((N-1)*level)` of the ascending sort of the pooled importance scores:
whatever list `t` is a sorted permutation of the pooled scores, the result sits
at that rank of `t` (in particular the rank is in bounds). -/
theorem select_threshold_rank_statistic (fn : List ℚ → List ℚ) (level : ℚ)
    (layers : List SparseModuleInfo) (t : List ℚ)
    (hne : layers ≠ []) (h0 : 0 ≤ level) (h1 : level < 1)
    (hN : 0 < (spec_pooled fn layers).length)
    (hperm : t.Perm (spec_pooled fn layers)) (hsort : t.Sorted (· ≤ ·)) :
    t[spec_rank t.length level]? = some (select_threshold fn level layers) := by
  have hts : t = (spec_pooled fn layers).insertionSort (· ≤ ·) :=
    List.eq_of_perm_of_sorted
      (hperm.trans (List.perm_insertionSort (· ≤ ·) (spec_pooled fn layers)).symm)
      hsort (List.sorted_insertionSort (· ≤ ·) (spec_pooled fn layers))
  subst hts
  rw [select_threshold_unfold fn level layers hne, List.length_insertionSort]
  have hone : (1 : ℚ) ≤ ((spec_pooled fn layers).length : ℚ) := by exact_mod_cast hN
  have hq0 : (0 : ℚ) ≤ (((spec_pooled fn layers).length : ℚ) - 1) * level :=
    mul_nonneg (by linarith) h0
  rw [show pyInt ((((spec_pooled fn layers).length : ℚ) - 1) * level) =
      Int.floor ((((spec_pooled fn layers).length : ℚ) - 1) * level) from by
    rw [pyInt, if_neg (not_lt.mpr hq0)]]
  have hfl : (Int.floor ((((spec_pooled fn layers).length : ℚ) - 1) * level)).toNat =
      spec_rank (spec_pooled fn layers).length level := rfl
  rw [hfl]
  have hcast : (((spec_pooled fn layers).length : ℚ) - 1) =
      ((((spec_pooled fn layers).length : ℤ) - 1 : ℤ) : ℚ) := by push_cast; ring
  have hfloor_n : Int.floor (((spec_pooled fn layers).length : ℚ) - 1) =
      ((spec_pooled fn layers).length : ℤ) - 1 := by
    rw [hcast, Int.floor_intCast]
  have hle : (((spec_pooled fn layers).length : ℚ) - 1) * level ≤
      ((spec_pooled fn layers).length : ℚ) - 1 :=
    mul_le_of_le_one_right (by linarith) h1.le
  have hfle := (Int.floor_mono hle).trans (le_of_eq hfloor_n)
  have hidx : spec_rank (spec_pooled fn layers).length level <
      (spec_pooled fn layers).length := by
    rw [spec_rank]
    omega
  have hidx2 : spec_rank (spec_pooled fn layers).length level <
      ((spec_pooled fn layers).insertionSort (· ≤ ·)).length := by
    rw [List.length_insertionSort]
    exact hidx
  rw [List.getElem?_eq_getElem hidx2]
  rfl

/-- C1 witness: the one-layer scenario at level 0; the sorted pooled scores
are `[0, 1, 2, 3, 4, 5]` and the threshold is the rank-0 element. -/
theorem select_threshold_rank_statistic_witness :
    ([demo_layer] ≠ ([] : List SparseModuleInfo) ∧ (0 : ℚ) ≤ 0 ∧ (0 : ℚ) < 1
    ∧ 0 < (spec_pooled abs_importance [demo_layer]).length
    ∧ ([(0 : ℚ), 1, 2, 3, 4, 5].Perm (spec_pooled abs_importance [demo_layer]))
    ∧ ([(0 : ℚ), 1, 2, 3, 4, 5].Sorted (· ≤ ·)))
    ∧ [(0 : ℚ), 1, 2, 3, 4, 5][spec_rank [(0 : ℚ), 1, 2, 3, 4, 5].length 0]? =
        some (select_threshold abs_importance 0 [demo_layer]) :=
  ⟨⟨by decide, by decide, by decide, by decide, by decide, by decide⟩,
    select_threshold_rank_statistic abs_importance 0 [demo_layer] [0, 1, 2, 3, 4, 5]
      (by decide) (by decide) (by decide) (by decide) (by decide) (by decide)⟩
